import Mathlib

/-!
Shallow embedding of the SDI data-search repository: the `Dataset` record and
its document mapping (src/models/dataset.py), the RDF extractor
(src/parsers/rdf_parser.py), the query-intent extractor
(src/query parser/query_parser.py), and the vector-store manager
(src/vector_stores/qdrant_store.py). External collaborators (the rdflib
triple store, the LLM chain, the Qdrant client) are modelled as explicit
parameters; the repository's own logic is translated function by function.
-/

/-- Value of one entry of the metadata dictionary returned by
`Dataset.to_metadata`: a Python value that is either `None`, a string, or a
list of strings. -/
inductive MetaValue where
  | null : MetaValue
  | str : String → MetaValue
  | list : List String → MetaValue
deriving DecidableEq, Repr

/-- Coerces an optional string to the Python value stored in the dict
(`None` becomes an explicit null). -/
def optToMeta : Option String → MetaValue
  | none => MetaValue.null
  | some s => MetaValue.str s

/-- Mirrors the `Dataset` dataclass of src/models/dataset.py. -/
structure Dataset where
  titles : List String
  descriptions : List String
  keywords : List String
  access_urls : List String
  download_urls : List String
  dataset_id : Option String := none
deriving DecidableEq, Repr

namespace Dataset

/-- Mirrors the `primary_title` property:
`self.titles[0] if self.titles else None`. -/
def primary_title (d : Dataset) : Option String :=
  match d.titles with
  | [] => none
  | t :: _ => some t

/-- Mirrors `Dataset.to_content`: starts from an empty `content_parts`
list, appends the title, description and keyword sections in that order,
each only when its source list is truthy (non-empty), and joins the parts
with a newline. -/
def to_content (d : Dataset) : String :=
  let content_parts : List String := []
  let content_parts :=
    if d.titles.isEmpty then content_parts
    else content_parts ++ ["Title: " ++ String.intercalate "; " d.titles]
  let content_parts :=
    if d.descriptions.isEmpty then content_parts
    else content_parts ++ ["Description: " ++ String.intercalate "; " d.descriptions]
  let content_parts :=
    if d.keywords.isEmpty then content_parts
    else content_parts ++ ["Keywords: " ++ String.intercalate ", " d.keywords]
  String.intercalate "\n" content_parts

/-- Mirrors `Dataset.to_metadata`: the dict literal with exactly the five
keys, in source order. -/
def to_metadata (d : Dataset) : List (String × MetaValue) :=
  [ ("title", optToMeta d.primary_title),
    ("dataset_id", optToMeta d.dataset_id),
    ("keywords", MetaValue.list d.keywords),
    ("access_urls", MetaValue.list d.access_urls),
    ("download_urls", MetaValue.list d.download_urls) ]

end Dataset

/-!
RDF extractor (src/parsers/rdf_parser.py). An rdflib `Graph` is modelled as
a duplicate-free list of triples over string-coerced nodes; `graph.subjects(p, o)`
and `graph.objects(s, p)` are the corresponding filtered projections, in graph
iteration order. The `str(...)` coercion of the Python comprehensions is the
identity here because nodes are already strings.
-/

/-- One RDF triple of the parsed graph. -/
structure Triple where
  subj : String
  pred : String
  obj : String
deriving DecidableEq, Repr

/-- A parsed RDF graph: its list of triples in iteration order. -/
abbrev RDFGraph := List Triple

/-- URI of `rdf:type` (the `RDF.type` constant used by the parser). -/
def rdfType : String := "http://www.w3.org/1999/02/22-rdf-syntax-ns#type"

/-- URI of `dcat:Dataset` (`self.dcat.Dataset`). -/
def dcatDataset : String := "http://www.w3.org/ns/dcat#Dataset"

/-- URI of `dct:title` (`self.dct.title`). -/
def dctTitle : String := "http://purl.org/dc/terms/title"

/-- URI of `dct:description` (`self.dct.description`). -/
def dctDescription : String := "http://purl.org/dc/terms/description"

/-- URI of `dcat:keyword` (`self.dcat.keyword`). -/
def dcatKeyword : String := "http://www.w3.org/ns/dcat#keyword"

/-- URI of `dcat:distribution` (`self.dcat.distribution`). -/
def dcatDistribution : String := "http://www.w3.org/ns/dcat#distribution"

/-- URI of `dcat:accessURL` (`self.dcat.accessURL`). -/
def dcatAccessURL : String := "http://www.w3.org/ns/dcat#accessURL"

/-- URI of `dcat:downloadURL` (`self.dcat.downloadURL`). -/
def dcatDownloadURL : String := "http://www.w3.org/ns/dcat#downloadURL"

namespace RDFGraph

/-- Mirrors `graph.subjects(p, o)`: subjects of the triples matching the
given predicate and object, in graph order. -/
def subjects (g : RDFGraph) (p o : String) : List String :=
  (List.filter (fun t => t.pred = p ∧ t.obj = o) g).map Triple.subj

/-- Mirrors `graph.objects(s, p)`: objects of the triples matching the
given subject and predicate, in graph order. -/
def objects (g : RDFGraph) (s p : String) : List String :=
  (List.filter (fun t => t.subj = s ∧ t.pred = p) g).map Triple.obj

end RDFGraph

namespace RDFParser

/-- Mirrors `RDFParser._extract_distribution_urls`: lists the
`dcat:distribution` objects of the dataset subject, then runs the `for`
loop that extends the `access_urls` and `download_urls` accumulators with
each distribution's `dcat:accessURL` and `dcat:downloadURL` objects. -/
def extract_distribution_urls (g : RDFGraph) (dataset_uri : String) :
    List String × List String :=
  let distributions := g.objects dataset_uri dcatDistribution
  distributions.foldl
    (fun acc distribution =>
      (acc.1 ++ g.objects distribution dcatAccessURL,
       acc.2 ++ g.objects distribution dcatDownloadURL))
    ([], [])

/-- Mirrors `RDFParser._extract_single_dataset`: collects titles,
descriptions and keywords of the subject, resolves distribution URLs, and
builds the `Dataset` (leaving `dataset_id` at its default). -/
def extract_single_dataset (g : RDFGraph) (dataset_uri : String) : Dataset :=
  let titles := g.objects dataset_uri dctTitle
  let descriptions := g.objects dataset_uri dctDescription
  let keywords := g.objects dataset_uri dcatKeyword
  let urls := extract_distribution_urls g dataset_uri
  { titles := titles
    descriptions := descriptions
    keywords := keywords
    access_urls := urls.1
    download_urls := urls.2 }

/-- Mirrors `RDFParser._extract_datasets`: one `Dataset` per subject with
`rdf:type = dcat:Dataset`, appended in subject order. -/
def extract_datasets (g : RDFGraph) : List Dataset :=
  let dataset_subjects := g.subjects rdfType dcatDataset
  dataset_subjects.foldl
    (fun datasets dataset_uri => datasets ++ [extract_single_dataset g dataset_uri])
    []

end RDFParser

/-!
Query-intent extractor (src/query parser/query_parser.py). Python's
`str.strip()` is modelled by `pyStrip`; Python truthiness of a string is
emptiness. The LLM chain (`self.chain.invoke`) is an external collaborator
and is passed in as an explicit function, so that independence from it
expresses that no network call is made.
-/

/-- Mirrors Python's `str.strip()` with no argument: removes leading and
trailing whitespace characters. -/
def pyStrip (s : String) : String :=
  String.mk (((s.data.dropWhile Char.isWhitespace).reverse.dropWhile Char.isWhitespace).reverse)

/-- Mirrors the `QueryIntent` pydantic model's fields. -/
structure QueryIntent where
  raw_theme : String
  locations : List String := []
  themes : List String := []
  publishers : List String := []
deriving DecidableEq, Repr

namespace QueryIntent

/-- Mirrors the `validate_raw_theme` validator: `if not v or not v.strip():
raise ValueError(...)`, else `return v.strip()`. -/
def validate_raw_theme (v : String) : Except String String :=
  if v = "" ∨ pyStrip v = "" then Except.error "raw_theme cannot be empty"
  else Except.ok (pyStrip v)

/-- Constructing a `QueryIntent` from a parsed LLM response runs the
`raw_theme` validator (pydantic applies it during model construction). -/
def construct (raw_theme : String) (locations themes publishers : List String) :
    Except String QueryIntent :=
  match validate_raw_theme raw_theme with
  | Except.error e => Except.error e
  | Except.ok v => Except.ok ⟨v, locations, themes, publishers⟩

end QueryIntent

namespace QueryParser

/-- Mirrors `QueryParser.parse`: rejects an empty or whitespace-only query
with `ValueError("Query cannot be empty")` before invoking the chain; the
chain (prompt, LLM and output processing, an external collaborator) is the
`chain` argument, applied to the query only on the non-empty path. A chain
failure is logged and re-raised unchanged. -/
def parse (chain : String → Except String QueryIntent) (query : String) :
    Except String QueryIntent :=
  if query = "" ∨ pyStrip query = "" then Except.error "Query cannot be empty"
  else chain query

end QueryParser

/-!
Vector-store manager (src/vector_stores/qdrant_store.py). The Qdrant client
and the langchain `QdrantVectorStore` are external collaborators: the store
is an abstract type `VS` held in the manager's `vector_store` field, which
is `None` until `initialize()` is called, and the collaborator operations
(`add_documents`, `similarity_search`, ...) are explicit function
arguments. A raised `ValueError` is an `Except.error` carrying its message.
-/

/-- Mirrors the langchain `Document`: page content plus metadata map. -/
structure Document where
  page_content : String
  metadata : List (String × MetaValue)
deriving DecidableEq, Repr

/-- Mirrors `QdrantVectorStoreManager`'s constructor state: `client` and
`vector_store` start as `None`. -/
structure QdrantVectorStoreManager (VS : Type) where
  host : String := "localhost"
  port : Nat := 6333
  collection_name : String := "dcat_colllection"
  vector_store : Option VS := none

namespace QdrantVectorStoreManager

/-- Mirrors `_datasets_to_documents`: the loop appending one `Document` per
dataset, with `to_content` as page content and `to_metadata` as metadata. -/
def datasets_to_documents (datasets : List Dataset) : List Document :=
  datasets.foldl
    (fun documents dataset =>
      documents ++ [⟨dataset.to_content, dataset.to_metadata⟩])
    []

/-- Mirrors `add_datasets`: raises
`ValueError("Vector store is not initialized. Call initialize() first.")`
when `vector_store` is falsy, otherwise converts the datasets and hands the
documents to the store collaborator's `add_documents`. -/
def add_datasets {VS : Type} (m : QdrantVectorStoreManager VS)
    (add_documents : VS → List Document → VS) (datasets : List Dataset) :
    Except String VS :=
  match m.vector_store with
  | none => Except.error "Vector store is not initialized. Call initialize() first."
  | some vs => Except.ok (add_documents vs (datasets_to_documents datasets))

/-- Mirrors `similarity_search`: raises
`ValueError("Vector store is not initialized")` when `vector_store` is
falsy, otherwise delegates to the store collaborator (with or without the
optional filter). -/
def similarity_search {VS Filt : Type}
    (m : QdrantVectorStoreManager VS)
    (store_search : VS → String → Nat → Option Filt → List Document)
    (query : String) (k : Nat) (filter_criteria : Option Filt) :
    Except String (List Document) :=
  match m.vector_store with
  | none => Except.error "Vector store is not initialized"
  | some vs =>
    match filter_criteria with
    | some f => Except.ok (store_search vs query k (some f))
    | none => Except.ok (store_search vs query k none)

/-- Mirrors `similarity_search_with_score`: same precondition guard, result
pairs each document with a relevance score (scores live in the collaborator;
their type is abstract here). -/
def similarity_search_with_score {VS Filt Score : Type}
    (m : QdrantVectorStoreManager VS)
    (store_search : VS → String → Nat → Option Filt → List (Document × Score))
    (query : String) (k : Nat) (filter_criteria : Option Filt) :
    Except String (List (Document × Score)) :=
  match m.vector_store with
  | none => Except.error "Vector store is not initialized"
  | some vs =>
    match filter_criteria with
    | some f => Except.ok (store_search vs query k (some f))
    | none => Except.ok (store_search vs query k none)

end QdrantVectorStoreManager

/-!
Helper lemmas shared by the claim theorems.
-/

/-- A foldl that appends one image per element equals the accumulator
followed by the map. -/
theorem foldl_append_one {α β : Type} (f : α → β) (l : List α) (acc : List β) :
    l.foldl (fun ds x => ds ++ [f x]) acc = acc ++ l.map f := by
  induction l generalizing acc with
  | nil => simp
  | cons x xs ih => simp [ih]

/-- A foldl extending two accumulators equals the pair of flattened maps. -/
theorem foldl_extend_pair {α : Type} (f h : α → List String) (l : List α)
    (a b : List String) :
    l.foldl (fun acc d => (acc.1 ++ f d, acc.2 ++ h d)) (a, b) =
      (a ++ l.flatMap f, b ++ l.flatMap h) := by
  induction l generalizing a b with
  | nil => simp
  | cons x xs ih => simp [ih]

/-- Claim C1: `to_content` produces the sections in the fixed order title,
description, keywords, joined with a single newline, each included only
when its source list is non-empty, titles and descriptions joined with
"; " and keywords with ", "; the two-title one-description dataset yields
exactly "Title: A; B\nDescription: D", and the all-empty dataset yields the
empty string (no trailing empty section). -/
theorem to_content_section_structure (d : Dataset) :
    d.to_content = String.intercalate "\n"
      ((if d.titles = [] then [] else ["Title: " ++ String.intercalate "; " d.titles]) ++
       (if d.descriptions = [] then []
        else ["Description: " ++ String.intercalate "; " d.descriptions]) ++
       (if d.keywords = [] then []
        else ["Keywords: " ++ String.intercalate ", " d.keywords])) ∧
    Dataset.to_content ⟨["A", "B"], ["D"], [], [], [], none⟩ =
      "Title: A; B\nDescription: D" ∧
    Dataset.to_content ⟨[], [], [], [], [], none⟩ = "" := by
  refine ⟨?_, by decide, by decide⟩
  cases ht : d.titles <;> cases hd : d.descriptions <;> cases hk : d.keywords <;>
    simp [Dataset.to_content, ht, hd, hk]

/-- Claim C2: `to_metadata` returns a map with exactly the five keys in
order title, dataset_id, keywords, access_urls, download_urls; the three
list fields are stored verbatim (including empty lists), and title and
dataset_id are explicit nulls when absent. -/
theorem to_metadata_keys_complete (d : Dataset) :
    d.to_metadata.map Prod.fst =
      ["title", "dataset_id", "keywords", "access_urls", "download_urls"] ∧
    d.to_metadata.lookup "keywords" = some (MetaValue.list d.keywords) ∧
    d.to_metadata.lookup "access_urls" = some (MetaValue.list d.access_urls) ∧
    d.to_metadata.lookup "download_urls" = some (MetaValue.list d.download_urls) ∧
    (d.titles = [] → d.to_metadata.lookup "title" = some MetaValue.null) ∧
    (d.dataset_id = none → d.to_metadata.lookup "dataset_id" = some MetaValue.null) := by
  refine ⟨rfl, rfl, rfl, rfl, ?_, ?_⟩
  · intro h
    simp [Dataset.to_metadata, Dataset.primary_title, h, List.lookup, optToMeta]
  · intro h
    simp [Dataset.to_metadata, h, List.lookup, optToMeta]

/-- Witness for C2 at a dataset with all fields empty or absent. -/
theorem to_metadata_keys_complete_witness :
    (Dataset.to_metadata ⟨[], [], [], [], [], none⟩).lookup "title" =
      some MetaValue.null ∧
    (Dataset.to_metadata ⟨[], [], [], [], [], none⟩).lookup "dataset_id" =
      some MetaValue.null :=
  ⟨(to_metadata_keys_complete ⟨[], [], [], [], [], none⟩).2.2.2.2.1 rfl,
   (to_metadata_keys_complete ⟨[], [], [], [], [], none⟩).2.2.2.2.2 rfl⟩

/-- Claim C4: `primary_title` is the first title when the list is
non-empty and `none` when it is empty; as a total Lean function it never
raises, in particular not on an empty titles list. -/
theorem primary_title_head (d : Dataset) :
    (d.titles = [] → d.primary_title = none) ∧
    (∀ t rest, d.titles = t :: rest → d.primary_title = some t) := by
  constructor
  · intro h
    simp [Dataset.primary_title, h]
  · intro t rest h
    simp [Dataset.primary_title, h]

/-- Witness for C4 at an empty-title dataset and a two-title dataset. -/
theorem primary_title_head_witness :
    Dataset.primary_title ⟨[], [], [], [], [], none⟩ = none ∧
    Dataset.primary_title ⟨["A", "B"], [], [], [], [], none⟩ = some "A" :=
  ⟨(primary_title_head ⟨[], [], [], [], [], none⟩).1 rfl,
   (primary_title_head ⟨["A", "B"], [], [], [], [], none⟩).2 "A" ["B"] rfl⟩

/-- Claim C3: extraction returns exactly one Dataset per subject carrying
`rdf:type = dcat:Dataset` — the subject list characterizes exactly those
subjects, the result is its image under single-dataset extraction, and
distinct triples (set semantics of the rdflib graph) give distinct
subjects; a graph with zero DCAT Dataset subjects yields the empty list. -/
theorem extract_datasets_one_per_subject (g : RDFGraph) :
    (∀ s, s ∈ g.subjects rdfType dcatDataset ↔
      (⟨s, rdfType, dcatDataset⟩ : Triple) ∈ g) ∧
    RDFParser.extract_datasets g =
      (g.subjects rdfType dcatDataset).map (RDFParser.extract_single_dataset g) ∧
    (g.Nodup → (g.subjects rdfType dcatDataset).Nodup) ∧
    (g.subjects rdfType dcatDataset = [] → RDFParser.extract_datasets g = []) := by
  have hmap : RDFParser.extract_datasets g =
      (g.subjects rdfType dcatDataset).map (RDFParser.extract_single_dataset g) := by
    unfold RDFParser.extract_datasets
    rw [foldl_append_one]
    simp
  refine ⟨?_, hmap, ?_, ?_⟩
  · intro s
    simp only [RDFGraph.subjects, List.mem_map, List.mem_filter, decide_eq_true_eq]
    constructor
    · rintro ⟨⟨ts, tp, tob⟩, ⟨htg, hp, ho⟩, hs⟩
      simp only at hp ho hs
      subst hp; subst ho; subst hs
      exact htg
    · intro h
      exact ⟨⟨s, rdfType, dcatDataset⟩, ⟨h, rfl, rfl⟩, rfl⟩
  · intro hg
    apply List.Nodup.map_on
    · rintro ⟨xs, xp, xo⟩ hx ⟨ys, yp, yo⟩ hy hxy
      simp only [List.mem_filter, decide_eq_true_eq] at hx hy
      simp only [Triple.mk.injEq] at hxy ⊢
      exact ⟨hxy, hx.2.1.trans hy.2.1.symm, hx.2.2.trans hy.2.2.symm⟩
    · exact hg.filter _
  · intro h
    rw [hmap, h]
    rfl

/-- Witness for C3 at the empty graph, which has zero DCAT Dataset
subjects. -/
theorem extract_datasets_one_per_subject_witness :
    (RDFGraph.subjects [] rdfType dcatDataset).Nodup ∧
    RDFParser.extract_datasets [] = [] :=
  ⟨(extract_datasets_one_per_subject []).2.2.1 List.nodup_nil,
   (extract_datasets_one_per_subject []).2.2.2 rfl⟩

/-- Scenario graph of C5: one Dataset subject with title "Air Quality
2024", two keywords, and one Distribution carrying only an accessURL. -/
def airQualityGraph : RDFGraph :=
  [ ⟨"http://ex/ds1", rdfType, dcatDataset⟩,
    ⟨"http://ex/ds1", dctTitle, "Air Quality 2024"⟩,
    ⟨"http://ex/ds1", dcatKeyword, "air"⟩,
    ⟨"http://ex/ds1", dcatKeyword, "quality"⟩,
    ⟨"http://ex/ds1", dcatDistribution, "http://ex/dist1"⟩,
    ⟨"http://ex/dist1", dcatAccessURL, "http://x/access"⟩ ]

/-- Claim C5: distribution URL extraction follows each `dcat:distribution`
edge and concatenates the distributions' `dcat:accessURL` and
`dcat:downloadURL` objects into one flat access list and one flat download
list; on the air-quality scenario graph, extraction yields exactly one
Dataset with the scenario's title, keywords and access URL and empty
download_urls. -/
theorem distribution_urls_flattened (g : RDFGraph) (dataset_uri : String) :
    RDFParser.extract_distribution_urls g dataset_uri =
      ((g.objects dataset_uri dcatDistribution).flatMap
        (fun dist => g.objects dist dcatAccessURL),
       (g.objects dataset_uri dcatDistribution).flatMap
        (fun dist => g.objects dist dcatDownloadURL)) ∧
    RDFParser.extract_datasets airQualityGraph =
      [⟨["Air Quality 2024"], [], ["air", "quality"], ["http://x/access"], [], none⟩] := by
  constructor
  · unfold RDFParser.extract_distribution_urls
    rw [foldl_extend_pair]
    simp
  · decide

/-- Claim C6: a subject carrying none of the `dct:title`,
`dct:description` and `dcat:keyword` predicates still extracts to a
Dataset whose three lists are empty, rather than failing. -/
theorem missing_predicates_give_empty_lists (g : RDFGraph) (uri : String)
    (ht : ∀ t ∈ g, ¬(t.subj = uri ∧ t.pred = dctTitle))
    (hd : ∀ t ∈ g, ¬(t.subj = uri ∧ t.pred = dctDescription))
    (hk : ∀ t ∈ g, ¬(t.subj = uri ∧ t.pred = dcatKeyword)) :
    (RDFParser.extract_single_dataset g uri).titles = [] ∧
    (RDFParser.extract_single_dataset g uri).descriptions = [] ∧
    (RDFParser.extract_single_dataset g uri).keywords = [] := by
  refine ⟨?_, ?_, ?_⟩ <;>
    simp only [RDFParser.extract_single_dataset, RDFGraph.objects] <;>
    rw [List.filter_eq_nil_iff.mpr] <;>
    simp_all

/-- Witness for C6: a graph whose only triple types the subject as a DCAT
Dataset, so no title, description or keyword predicate is present. -/
theorem missing_predicates_give_empty_lists_witness :
    (RDFParser.extract_single_dataset [⟨"s", rdfType, dcatDataset⟩] "s").titles = [] ∧
    (RDFParser.extract_single_dataset [⟨"s", rdfType, dcatDataset⟩] "s").descriptions = [] ∧
    (RDFParser.extract_single_dataset [⟨"s", rdfType, dcatDataset⟩] "s").keywords = [] :=
  missing_predicates_give_empty_lists [⟨"s", rdfType, dcatDataset⟩] "s"
    (by decide) (by decide) (by decide)

/-- Claim C10: every Dataset produced by the extractor has `dataset_id =
none`, and hence its metadata's dataset_id entry is the explicit null. -/
theorem extracted_dataset_id_is_null (g : RDFGraph) (d : Dataset)
    (h : d ∈ RDFParser.extract_datasets g) :
    d.dataset_id = none ∧
    d.to_metadata.lookup "dataset_id" = some MetaValue.null := by
  have hid : d.dataset_id = none := by
    unfold RDFParser.extract_datasets at h
    rw [foldl_append_one] at h
    simp only [List.nil_append, List.mem_map] at h
    obtain ⟨s, _, rfl⟩ := h
    rfl
  refine ⟨hid, ?_⟩
  simp [Dataset.to_metadata, List.lookup, hid, optToMeta]

/-- Witness for C10: the single dataset extracted from a one-triple graph. -/
theorem extracted_dataset_id_is_null_witness :
    Dataset.dataset_id ⟨[], [], [], [], [], none⟩ = none ∧
    (Dataset.to_metadata ⟨[], [], [], [], [], none⟩).lookup "dataset_id" =
      some MetaValue.null :=
  extracted_dataset_id_is_null [⟨"s", rdfType, dcatDataset⟩]
    ⟨[], [], [], [], [], none⟩ (by decide)

/-- Claim C7: an empty or whitespace-only query is rejected with the
"Query cannot be empty" validation error, and the chain collaborator is
never consulted — the result is the same for every chain. -/
theorem parse_rejects_empty_query
    (chain chain2 : String → Except String QueryIntent) (query : String)
    (h : pyStrip query = "") :
    QueryParser.parse chain query = Except.error "Query cannot be empty" ∧
    QueryParser.parse chain query = QueryParser.parse chain2 query := by
  constructor <;> simp [QueryParser.parse, h]

/-- Witness for C7 at the whitespace-only query, with a succeeding and a
failing chain. -/
theorem parse_rejects_empty_query_witness :
    QueryParser.parse (fun _ => Except.ok ⟨"x", [], [], []⟩) "   " =
      Except.error "Query cannot be empty" ∧
    QueryParser.parse (fun _ => Except.ok ⟨"x", [], [], []⟩) "   " =
      QueryParser.parse (fun _ => Except.error "llm failure") "   " :=
  ⟨(parse_rejects_empty_query (fun _ => Except.ok ⟨"x", [], [], []⟩)
      (fun _ => Except.error "llm failure") "   " (by decide)).1,
   (parse_rejects_empty_query (fun _ => Except.ok ⟨"x", [], [], []⟩)
      (fun _ => Except.error "llm failure") "   " (by decide)).2⟩

/-- Claim C8: the raw_theme validator rejects a value that strips to the
empty string, and on success the stored value is the stripped input and is
non-empty; hence every constructed QueryIntent carries a non-empty
stripped raw_theme. -/
theorem raw_theme_validated (v : String) :
    (pyStrip v = "" →
      QueryIntent.validate_raw_theme v = Except.error "raw_theme cannot be empty") ∧
    (∀ w, QueryIntent.validate_raw_theme v = Except.ok w →
      w = pyStrip v ∧ w ≠ "") ∧
    (∀ l t p qi, QueryIntent.construct v l t p = Except.ok qi →
      qi.raw_theme = pyStrip v ∧ qi.raw_theme ≠ "") := by
  have hval : ∀ w, QueryIntent.validate_raw_theme v = Except.ok w →
      w = pyStrip v ∧ w ≠ "" := by
    intro w hw
    unfold QueryIntent.validate_raw_theme at hw
    by_cases hc : v = "" ∨ pyStrip v = ""
    · rw [if_pos hc] at hw
      exact absurd hw (by simp)
    · rw [if_neg hc] at hw
      push_neg at hc
      cases hw
      exact ⟨rfl, hc.2⟩
  refine ⟨?_, hval, ?_⟩
  · intro h
    simp [QueryIntent.validate_raw_theme, h]
  · intro l t p qi hqi
    unfold QueryIntent.construct at hqi
    cases hv : QueryIntent.validate_raw_theme v with
    | error e => rw [hv] at hqi; exact absurd hqi (by simp)
    | ok w =>
      rw [hv] at hqi
      cases hqi
      exact hval w hv

/-- Witness for C8 at a whitespace-only theme and at a padded theme. -/
theorem raw_theme_validated_witness :
    QueryIntent.validate_raw_theme "   " = Except.error "raw_theme cannot be empty" ∧
    ("theme" = pyStrip " theme " ∧ "theme" ≠ "") :=
  ⟨(raw_theme_validated "   ").1 (by decide),
   (raw_theme_validated " theme ").2.1 "theme" (by rfl)⟩

/-- Claim C9: on a manager whose `vector_store` is still `None` (that is,
`initialize()` has not been called — construction leaves the field `None`
and only `initialize()` sets it), `add_datasets`, `similarity_search` and
`similarity_search_with_score` each fail with their explicit
"not initialized" precondition error, with no access to the absent store. -/
theorem manager_before_init_errors {VS Filt Score : Type}
    (m : QdrantVectorStoreManager VS)
    (add_documents : VS → List Document → VS)
    (store_search : VS → String → Nat → Option Filt → List Document)
    (store_search_scored : VS → String → Nat → Option Filt → List (Document × Score))
    (datasets : List Dataset) (query : String) (k : Nat) (filt : Option Filt)
    (h : m.vector_store = none) :
    m.add_datasets add_documents datasets =
      Except.error "Vector store is not initialized. Call initialize() first." ∧
    m.similarity_search store_search query k filt =
      Except.error "Vector store is not initialized" ∧
    m.similarity_search_with_score store_search_scored query k filt =
      Except.error "Vector store is not initialized" := by
  refine ⟨?_, ?_, ?_⟩ <;>
    simp [QdrantVectorStoreManager.add_datasets,
      QdrantVectorStoreManager.similarity_search,
      QdrantVectorStoreManager.similarity_search_with_score, h]

/-- Witness for C9 on a freshly constructed manager over trivial
collaborator types. -/
theorem manager_before_init_errors_witness :
    @QdrantVectorStoreManager.add_datasets Unit {} (fun vs _ => vs) [] =
      Except.error "Vector store is not initialized. Call initialize() first." ∧
    @QdrantVectorStoreManager.similarity_search Unit Unit {}
      (fun _ _ _ _ => []) "q" 3 none =
      Except.error "Vector store is not initialized" ∧
    @QdrantVectorStoreManager.similarity_search_with_score Unit Unit Unit {}
      (fun _ _ _ _ => []) "q" 3 none =
      Except.error "Vector store is not initialized" :=
  manager_before_init_errors {} (fun vs _ => vs) (fun _ _ _ _ => [])
    (fun _ _ _ _ => []) [] "q" 3 none rfl
